import Mathlib

/-!
Shallow embedding of the DJZ-ZeroPrompt-V2 prompt generator
(`DJZ_ZeroPrompt_V2.py`): the xxHash32-based coordinate hasher,
the index mapper, profile loading/discovery, the prompt assembler,
the combinatorics reporter, and the node-level cache logic.

Python exceptions are modelled by `Option` (a `none` result means the
Python code raises) or `Except` where the exception kind matters.
Python `dict`s appear as insertion-ordered association lists.
-/

namespace ZeroPrompt

/-! ### xxHash32 (the `xxhash.xxh32` digest used by `prompt_hash`) -/

def M32 : Nat := 2 ^ 32

def PRIME1 : Nat := 2654435761
def PRIME2 : Nat := 2246822519
def PRIME3 : Nat := 3266489917
def PRIME4 : Nat := 668265263
def PRIME5 : Nat := 374761393

/-- 32-bit left rotation (input assumed `< 2^32`). -/
def rotl32 (x r : Nat) : Nat := ((x <<< r) ||| (x >>> (32 - r))) % M32

def add32 (a b : Nat) : Nat := (a + b) % M32

def mul32 (a b : Nat) : Nat := (a * b) % M32

/-- Little-endian 32-bit word from four bytes. -/
def word32 (b0 b1 b2 b3 : Nat) : Nat := b0 + b1 * 256 + b2 * 65536 + b3 * 16777216

/-- One accumulator round on a 4-byte lane. -/
def xxh32Round (acc lane : Nat) : Nat := mul32 (rotl32 (add32 acc (mul32 lane PRIME2)) 13) PRIME1

/-- Consume 16-byte stripes while at least 16 bytes remain. -/
def xxh32Stripes (a1 a2 a3 a4 : Nat) : List Nat → Nat × Nat × Nat × Nat × List Nat
  | b0 :: b1 :: b2 :: b3 :: b4 :: b5 :: b6 :: b7 ::
    b8 :: b9 :: b10 :: b11 :: b12 :: b13 :: b14 :: b15 :: rest =>
      xxh32Stripes (xxh32Round a1 (word32 b0 b1 b2 b3)) (xxh32Round a2 (word32 b4 b5 b6 b7))
        (xxh32Round a3 (word32 b8 b9 b10 b11)) (xxh32Round a4 (word32 b12 b13 b14 b15)) rest
  | rest => (a1, a2, a3, a4, rest)

/-- Consume remaining 4-byte chunks. -/
def xxh32Tail4 (h : Nat) : List Nat → Nat × List Nat
  | b0 :: b1 :: b2 :: b3 :: rest =>
      xxh32Tail4 (mul32 (rotl32 (add32 h (mul32 (word32 b0 b1 b2 b3) PRIME3)) 17) PRIME4) rest
  | rest => (h, rest)

/-- Consume remaining single bytes. -/
def xxh32Tail1 (h : Nat) : List Nat → Nat
  | b :: rest => xxh32Tail1 (mul32 (rotl32 (add32 h (mul32 b PRIME5)) 11) PRIME1) rest
  | [] => h

/-- Final avalanche mix. -/
def xxh32Avalanche (h : Nat) : Nat :=
  let h1 := mul32 (h ^^^ (h >>> 15)) PRIME2
  let h2 := mul32 (h1 ^^^ (h1 >>> 13)) PRIME3
  h2 ^^^ (h2 >>> 16)

/-- xxHash32 of a byte sequence with a 32-bit seed. -/
def xxh32 (seed : Nat) (input : List Nat) : Nat :=
  let len := input.length
  let start :=
    if len ≥ 16 then
      let s := xxh32Stripes (add32 seed (add32 PRIME1 PRIME2)) (add32 seed PRIME2)
        (seed % M32) ((seed + M32 - PRIME1) % M32) input
      (add32 (add32 (rotl32 s.1 1) (rotl32 s.2.1 7)) (add32 (rotl32 s.2.2.1 12) (rotl32 s.2.2.2.1 18)),
        s.2.2.2.2)
    else (add32 (seed % M32) PRIME5, input)
  let mid := xxh32Tail4 (add32 start.1 len) start.2
  xxh32Avalanche (xxh32Tail1 mid.1 mid.2)

/-! ### `struct.pack('<i', v)`: little-endian signed 32-bit packing.

Python `struct` raises `struct.error` for a value outside
`[-2^31, 2^31 - 1]`; that failure is the `none` case. -/

def pack_int32 (v : Int) : Option (List Nat) :=
  if -(2 ^ 31) ≤ v ∧ v < 2 ^ 31 then
    let u : Nat := (v % (2 ^ 32 : Int)).toNat
    some [u % 256, u / 256 % 256, u / 65536 % 256, u / 16777216 % 256]
  else none

/-- `struct.pack('<' + 'i'*len(coords), *coords)`. -/
def pack_coords (coords : List Int) : Option (List Nat) :=
  (coords.mapM pack_int32).map List.flatten

/-! ### Core hash functions (`prompt_hash`, `hash_to_index`) -/

/-- `prompt_hash(seed, *coords)`: xxh32 with the masked seed over the
little-endian int32 packing of the coordinates.  `none` models the
`struct.error` raised when a coordinate is out of int32 range. -/
def prompt_hash (seed : Int) (coords : List Int) : Option Nat :=
  (pack_coords coords).map (fun bytes => xxh32 (seed % (2 ^ 32 : Int)).toNat bytes)

/-- `hash_to_index(h, pool_size) = h % pool_size`. -/
def hash_to_index (h pool_size : Nat) : Nat := h % pool_size

/-! ### Profiles -/

/-- A loaded profile: the `templates` list and the insertion-ordered
`pools` mapping from slot name to pool. -/
structure Profile where
  templates : List String
  pools : List (String × List String)
deriving Repr, DecidableEq

/-- Raw parsed JSON object: each required field may be absent. -/
structure RawProfile where
  templates? : Option (List String)
  pools? : Option (List (String × List String))
deriving Repr, DecidableEq

/-! ### Python `str.format` (the simple-named-field subset used by profiles) -/

/-- Last-binding lookup in an association list (Python `dict` access,
where a repeated key keeps its last value). -/
def dictGet (m : List (String × String)) (k : String) : Option String :=
  (m.reverse.find? (fun kv => kv.1 == k)).map (fun kv => kv.2)

inductive FmtError where
  /-- `KeyError`: the template names a field absent from the mapping. -/
  | keyError (k : String)
  /-- any other formatting exception (`ValueError`, `IndexError`), which
  `generate_prompt` does not catch -/
  | valueError
deriving Repr, DecidableEq

/-- Scan a replacement-field name up to the closing `\x7d`; `none` models
the `ValueError` on an unterminated or nested field. -/
def takeField : List Char → Option (List Char × List Char)
  | [] => none
  | c :: cs =>
    if c = '}' then some ([], cs)
    else if c = '{' then none
    else (takeField cs).map (fun p => (c :: p.1, p.2))

/-- Scanner state for the formatter: in literal text, just after an
opening or closing brace, or inside a replacement-field name (collected
in reverse). -/
inductive FmtState where
  | normal
  | afterOpen
  | afterClose
  | inField (nameRev : List Char)
deriving Repr, DecidableEq

/-- Core of `template.format(**components)` on simple named fields:
doubled braces escape, a named field is looked up (`KeyError` when
absent), a stray or unterminated brace (or an empty field name, whose
`IndexError` is equally uncaught) is the `valueError` case. -/
def pyFormatGo (comps : List (String × String)) : FmtState → List Char → Except FmtError (List Char)
  | .normal, [] => .ok []
  | .normal, c :: rest =>
    if c = '{' then pyFormatGo comps .afterOpen rest
    else if c = '}' then pyFormatGo comps .afterClose rest
    else (pyFormatGo comps .normal rest).map (fun t => c :: t)
  | .afterOpen, [] => .error .valueError
  | .afterOpen, c :: rest =>
    if c = '{' then (pyFormatGo comps .normal rest).map (fun t => '{' :: t)
    else if c = '}' then .error .valueError
    else pyFormatGo comps (.inField [c]) rest
  | .afterClose, [] => .error .valueError
  | .afterClose, c :: rest =>
    if c = '}' then (pyFormatGo comps .normal rest).map (fun t => '}' :: t)
    else .error .valueError
  | .inField _, [] => .error .valueError
  | .inField nameRev, c :: rest =>
    if c = '}' then
      match dictGet comps (String.mk nameRev.reverse) with
      | none => .error (.keyError (String.mk nameRev.reverse))
      | some v => (pyFormatGo comps .normal rest).map (fun t => v.data ++ t)
    else if c = '{' then .error .valueError
    else pyFormatGo comps (.inField (c :: nameRev)) rest

def pyFormat (comps : List (String × String)) (template : String) : Except FmtError String :=
  (pyFormatGo comps .normal template.data).map String.mk

/-- `pat` matches at the head of the list. -/
def matchesAt : List Char → List Char → Bool
  | [], _ => true
  | _ :: _, [] => false
  | p :: ps, c :: cs => p == c && matchesAt ps cs

/-- Python `str.replace` scanning: leftmost-first, non-overlapping,
resuming after each replacement.  The fuel (instantiated with the
string's length, enough for any non-empty pattern) only makes the
recursion structural. -/
def replaceCore (pat rep : List Char) : Nat → List Char → List Char
  | _, [] => []
  | 0, l => l
  | fuel + 1, c :: cs =>
    if matchesAt pat (c :: cs) then rep ++ replaceCore pat rep fuel ((c :: cs).drop pat.length)
    else c :: replaceCore pat rep fuel cs

/-- `s.replace(pat, rep)` for a non-empty pattern. -/
def pyReplace (s pat rep : String) : String :=
  String.mk (replaceCore pat.data rep.data s.data.length s.data)

/-- The `except KeyError` fallback loop:
`template.replace("\x7b"+key+"\x7d", components.get(key, "["+key+"]"))`
over the pool keys, in order. -/
def fallbackSubst (comps : List (String × String)) (template : String) (keys : List String) : String :=
  keys.foldl
    (fun t key => pyReplace t ("\x7b" ++ key ++ "\x7d") ((dictGet comps key).getD ("[" ++ key ++ "]")))
    template

/-! ### Prompt assembly (`generate_prompt`) -/

/-- The component loop:
`for i, (key, pool) in enumerate(pools.items()):
   components[key] = pool[hash_to_index(prompt_hash(seed, prompt_idx, i+1), len(pool))]`.
`none` models the `struct.error`/`ZeroDivisionError` raised inside the loop. -/
def buildComponents (seed prompt_idx : Int) : Nat → List (String × List String) →
    Option (List (String × String))
  | _, [] => some []
  | i, (key, pool) :: rest => do
    let h ← prompt_hash seed [prompt_idx, (i : Int) + 1]
    let v ← pool[hash_to_index h pool.length]?
    let tail ← buildComponents seed prompt_idx (i + 1) rest
    pure ((key, v) :: tail)

/-- `generate_prompt(seed, prompt_idx, profile)`.  `none` models an
uncaught Python exception (`struct.error` on an out-of-range coordinate,
`ZeroDivisionError` on an empty collection, or a formatting `ValueError`);
a `KeyError` from `format` is caught and handled by the fallback loop. -/
def generate_prompt (seed prompt_idx : Int) (profile : Profile) : Option String := do
  let templates := profile.templates
  let pools := profile.pools
  let template_hash ← prompt_hash seed [prompt_idx, 0]
  let template ← templates[hash_to_index template_hash templates.length]?
  let components ← buildComponents seed prompt_idx 0 pools
  match pyFormat components template with
  | .ok s => some s
  | .error (.keyError _) => some (fallbackSubst components template (pools.map (fun kv => kv.1)))
  | .error .valueError => none

/-! ### Profile loading (`load_profile`) and discovery (`discover_profiles`) -/

/-- What the filesystem/JSON layer hands `load_profile`: the file is
absent, it fails to parse, or it parses to a raw object. -/
inductive ProfileSource where
  | missing
  | malformed (msg : String)
  | parsed (raw : RawProfile)
deriving Repr, DecidableEq

/-- The exceptions `load_profile` can raise: `FileNotFoundError`,
`json.JSONDecodeError`, or `ValueError` for each missing field. -/
inductive LoadError where
  | fileNotFound (profile_name : String)
  | jsonDecode (msg : String)
  | missingTemplates (profile_name : String)
  | missingPools (profile_name : String)
deriving Repr, DecidableEq

/-- `load_profile(profile_name)`: raise if the file is missing or
malformed, then check that the `templates` and `pools` fields are
present (in that order); the parsed object is returned as-is. -/
def load_profile (profile_name : String) (src : ProfileSource) : Except LoadError Profile :=
  match src with
  | .missing => .error (.fileNotFound profile_name)
  | .malformed msg => .error (.jsonDecode msg)
  | .parsed raw =>
    match raw.templates? with
    | none => .error (.missingTemplates profile_name)
    | some ts =>
      match raw.pools? with
      | none => .error (.missingPools profile_name)
      | some ps => .ok ⟨ts, ps⟩

/-- `str(e)` for each exception `load_profile` raises. -/
def errString : LoadError → String
  | .fileNotFound profile_name => "Profile not found: " ++ profile_name
  | .jsonDecode msg => msg
  | .missingTemplates profile_name => "Profile " ++ profile_name ++ " missing 'templates' field"
  | .missingPools profile_name => "Profile " ++ profile_name ++ " missing 'pools' field"

/-- Lexicographic code-point comparison of character lists (Python
string `<=`). -/
def charListLe : List Char → List Char → Bool
  | [], _ => true
  | _ :: _, [] => false
  | c :: cs, d :: ds =>
    if c.toNat = d.toNat then charListLe cs ds else decide (c.toNat < d.toNat)

/-- Python string comparison `a <= b`. -/
def strLe (a b : String) : Bool := charListLe a.data b.data

/-- `discover_profiles()`.  The argument is the result of
`profiles_dir.glob("*.json")` restricted to plain files: `none` when the
directory does not exist, otherwise the list of matching filenames.
Python's stable `sorted` on strings is modelled by insertion sort under
the lexicographic code-point order. -/
def discover_profiles (listing : Option (List String)) : List String :=
  match listing with
  | none => ["default.json"]
  | some names =>
    let profiles := List.insertionSort (fun a b => strLe a b = true) names
    let profiles' := if "default.json" ∈ profiles
      then "default.json" :: profiles.erase "default.json"
      else profiles
    if profiles'.isEmpty then ["default.json"] else profiles'

/-! ### Combinatorics reporter (`calculate_combinations`) -/

/-- `calculate_combinations(profile)`: start from
`len(profile.get('templates', []))` and multiply by each pool's length. -/
def calculate_combinations (profile : RawProfile) : Nat :=
  (profile.pools?.getD []).foldl (fun acc kv => acc * kv.2.length)
    (profile.templates?.getD []).length

/-! ### Spec-side decomposition of the assembler (for refinement).

These definitions follow the spec's §4.4 wording: template choice from
`hash(seed, [index, 0])`, and the slot of 0-based rank `slot_position`
from `hash(seed, [index, slot_position + 1])` and its own pool alone. -/

def selectTemplateSpec (seed index : Int) (templates : List String) : Option String := do
  let h ← prompt_hash seed [index, 0]
  templates[h % templates.length]?

/-- The value of one slot, a function of the seed, the index, the slot's
own 0-based rank and its own pool only. -/
def slotValueSpec (seed index : Int) (slot_position : Nat) (pool : List String) : Option String := do
  let h ← prompt_hash seed [index, (slot_position : Int) + 1]
  pool[h % pool.length]?

def componentsSpec (seed index : Int) (pools : List (String × List String)) :
    Option (List (String × String)) :=
  pools.enum.mapM (fun x => (slotValueSpec seed index x.1 x.2.2).map (fun v => (x.2.1, v)))

def assembleSpec (seed index : Int) (p : Profile) : Option String := do
  let template ← selectTemplateSpec seed index p.templates
  let components ← componentsSpec seed index p.pools
  match pyFormat components template with
  | .ok s => some s
  | .error (.keyError _) => some (fallbackSubst components template (p.pools.map (fun kv => kv.1)))
  | .error .valueError => none

/-! ### The node method `DJZZeroPromptV2.generate` -/

/-- The class-level profile cache, an insertion-ordered dict. -/
structure NodeState where
  profile_cache : List (String × Profile)
deriving Repr, DecidableEq

def cacheGet (cache : List (String × Profile)) (k : String) : Option Profile :=
  (cache.find? (fun kv => kv.1 == k)).map (fun kv => kv.2)

/-- Python dict assignment: overwrite in place, else append. -/
def cacheSet (cache : List (String × Profile)) (k : String) (v : Profile) :
    List (String × Profile) :=
  if cache.any (fun kv => kv.1 == k) then
    cache.map (fun kv => if kv.1 == k then (k, v) else kv)
  else cache ++ [(k, v)]

/-- `if prefix or suffix: prompt = f"..."` (Python string truthiness). -/
def applyAffixes (pre suf : String) (prompt : String) : String :=
  if pre ≠ "" ∨ suf ≠ "" then pre ++ prompt ++ suf else prompt

/-- `DJZZeroPromptV2.generate`: on a cache miss, try to load the profile
(`src` is what the filesystem presents for that name); a load error is
caught and turned into an error-message result with the cache untouched;
otherwise the loaded profile is cached and used.  The second component is
`none` when `generate_prompt` raises (that exception is not caught). -/
def DJZ_generate (st : NodeState) (profile : String) (src : ProfileSource)
    (seed prompt_index : Int) (pre suf : String) : NodeState × Option String :=
  match cacheGet st.profile_cache profile with
  | some profile_data =>
      (st, (generate_prompt seed prompt_index profile_data).map (applyAffixes pre suf))
  | none =>
    match load_profile profile src with
    | .error e =>
        (st, some ("[Error loading profile '" ++ profile ++ "': " ++ errString e ++ "]"))
    | .ok profile_data =>
        (⟨cacheSet st.profile_cache profile profile_data⟩,
          (generate_prompt seed prompt_index profile_data).map (applyAffixes pre suf))

/-! ### Helper lemmas -/

theorem charListLe_total : ∀ a b : List Char, charListLe a b = true ∨ charListLe b a = true := by
  intro a
  induction a with
  | nil => intro b; left; simp [charListLe]
  | cons x xs ih =>
    intro b
    cases b with
    | nil => right; simp [charListLe]
    | cons y ys =>
      by_cases h : x.toNat = y.toNat
      · rcases ih ys with h' | h'
        · left; simp [charListLe, h, h']
        · right; simp [charListLe, h.symm, h']
      · rcases Nat.lt_or_ge x.toNat y.toNat with h' | h'
        · left; simp [charListLe, h, h']
        · right
          have hne : y.toNat ≠ x.toNat := fun hc => h hc.symm
          simp [charListLe, hne]
          omega

theorem charListLe_trans : ∀ a b c : List Char,
    charListLe a b = true → charListLe b c = true → charListLe a c = true := by
  intro a
  induction a with
  | nil => intro b c _ _; simp [charListLe]
  | cons x xs ih =>
    intro b c hab hbc
    cases b with
    | nil => simp [charListLe] at hab
    | cons y ys =>
      cases c with
      | nil => simp [charListLe] at hbc
      | cons z zs =>
        by_cases h1 : x.toNat = y.toNat <;> by_cases h2 : y.toNat = z.toNat
        · simp only [charListLe, h1, h2, if_pos rfl] at hab hbc ⊢
          simp only [if_pos (h1.trans h2)] at *
          exact ih ys zs hab hbc
        · simp only [charListLe, if_pos h1] at hab
          simp only [charListLe, if_neg h2] at hbc
          have hlt : y.toNat < z.toNat := by simpa using hbc
          simp only [charListLe]
          rw [if_neg (by omega), decide_eq_true_eq]
          omega
        · simp only [charListLe, if_neg h1] at hab
          simp only [charListLe, if_pos h2] at hbc
          have hlt : x.toNat < y.toNat := by simpa using hab
          simp only [charListLe]
          rw [if_neg (by omega), decide_eq_true_eq]
          omega
        · simp only [charListLe, if_neg h1] at hab
          simp only [charListLe, if_neg h2] at hbc
          have hlt1 : x.toNat < y.toNat := by simpa using hab
          have hlt2 : y.toNat < z.toNat := by simpa using hbc
          simp only [charListLe]
          rw [if_neg (by omega), decide_eq_true_eq]
          omega

instance : IsTotal String fun a b => strLe a b = true :=
  ⟨fun a b => charListLe_total a.data b.data⟩

instance : IsTrans String fun a b => strLe a b = true :=
  ⟨fun a b c => charListLe_trans a.data b.data c.data⟩

theorem foldl_mul_eq {α : Type} (f : α → Nat) :
    ∀ (l : List α) (init : Nat), l.foldl (fun acc x => acc * f x) init = init * (l.map f).prod := by
  intro l
  induction l with
  | nil => intro init; simp
  | cons x xs ih =>
    intro init
    simp only [List.foldl_cons, List.map_cons, List.prod_cons, ih]
    ring

theorem prompt_hash_congr {s t : Int} (h : s % (2 ^ 32 : Int) = t % (2 ^ 32 : Int))
    (coords : List Int) : prompt_hash s coords = prompt_hash t coords := by
  unfold prompt_hash
  rw [show (s % (2 ^ 32 : Int)).toNat = (t % (2 ^ 32 : Int)).toNat from by rw [h]]

theorem buildComponents_seed_congr {s t : Int} (h : s % (2 ^ 32 : Int) = t % (2 ^ 32 : Int))
    (prompt_idx : Int) : ∀ (n : Nat) (pools : List (String × List String)),
    buildComponents s prompt_idx n pools = buildComponents t prompt_idx n pools := by
  intro n pools
  induction pools generalizing n with
  | nil => simp [buildComponents]
  | cons kv rest ih =>
    obtain ⟨k, pool⟩ := kv
    simp only [buildComponents, prompt_hash_congr h, ih]

theorem generate_prompt_seed_congr {s t : Int} (h : s % (2 ^ 32 : Int) = t % (2 ^ 32 : Int))
    (prompt_idx : Int) (p : Profile) :
    generate_prompt s prompt_idx p = generate_prompt t prompt_idx p := by
  simp only [generate_prompt, prompt_hash_congr h, buildComponents_seed_congr h]

theorem buildComponents_eq_spec (seed prompt_idx : Int) :
    ∀ (pools : List (String × List String)) (n : Nat),
    buildComponents seed prompt_idx n pools =
      (pools.enumFrom n).mapM
        (fun x => (slotValueSpec seed prompt_idx x.1 x.2.2).map (fun v => (x.2.1, v))) := by
  intro pools
  induction pools with
  | nil => intro n; rfl
  | cons kv rest ih =>
    intro n
    obtain ⟨k, pool⟩ := kv
    simp only [buildComponents, List.enumFrom, List.mapM_cons, slotValueSpec, hash_to_index, ih]
    cases hph : prompt_hash seed [prompt_idx, (n : Int) + 1] with
    | none => simp
    | some h =>
      cases hv : pool[h % pool.length]? with
      | none => simp [hv]
      | some v => simp [hv]

theorem componentsSpec_get (seed prompt_idx : Int) :
    ∀ (pools : List (String × List String)) (n : Nat) (comps : List (String × String)),
    (pools.enumFrom n).mapM
        (fun x => (slotValueSpec seed prompt_idx x.1 x.2.2).map (fun v => (x.2.1, v))) =
      some comps →
    ∀ (i : Nat) (k : String) (pool : List String), pools[i]? = some (k, pool) →
      ∃ v, slotValueSpec seed prompt_idx (n + i) pool = some v ∧ comps[i]? = some (k, v) := by
  intro pools
  induction pools with
  | nil => intro n comps _ i k pool hi; simp at hi
  | cons kv rest ih =>
    intro n comps hm i k pool hi
    obtain ⟨k0, pool0⟩ := kv
    simp only [List.enumFrom_cons, List.mapM_cons] at hm
    cases hv : slotValueSpec seed prompt_idx n pool0 with
    | none => rw [hv] at hm; simp at hm
    | some v0 =>
      rw [hv] at hm
      cases ht : (rest.enumFrom (n + 1)).mapM
          (fun x => (slotValueSpec seed prompt_idx x.1 x.2.2).map (fun v => (x.2.1, v))) with
      | none => rw [ht] at hm; simp at hm
      | some tail =>
        rw [ht] at hm
        simp at hm
        subst hm
        cases i with
        | zero =>
          simp only [List.getElem?_cons_zero, Option.some_inj] at hi
          cases hi
          exact ⟨v0, by simpa using hv, by simp⟩
        | succ j =>
          simp only [List.getElem?_cons_succ] at hi
          obtain ⟨v, hv', hc⟩ := ih (n + 1) tail ht j k pool hi
          refine ⟨v, ?_, ?_⟩
          · have heq : n + 1 + j = n + (j + 1) := by omega
            rwa [heq] at hv'
          · simpa using hc

theorem pack_int32_bounded {v : Int} (h1 : -(2 ^ 31) ≤ v) (h2 : v < 2 ^ 31) :
    ∃ bs, pack_int32 v = some bs := by
  unfold pack_int32
  rw [if_pos ⟨h1, h2⟩]
  exact ⟨_, rfl⟩

theorem prompt_hash_pair_some (seed a b : Int) (ha1 : -(2 ^ 31) ≤ a) (ha2 : a < 2 ^ 31)
    (hb1 : -(2 ^ 31) ≤ b) (hb2 : b < 2 ^ 31) : ∃ h, prompt_hash seed [a, b] = some h := by
  obtain ⟨bsa, hpa⟩ := pack_int32_bounded ha1 ha2
  obtain ⟨bsb, hpb⟩ := pack_int32_bounded hb1 hb2
  simp [prompt_hash, pack_coords, List.mapM.loop, hpa, hpb]

/-! ### Fixed example profiles used by the claim theorems -/

/-- A minimal valid profile: one template referencing the one pool. -/
def profileW : Profile := ⟨["a {x}"], [("x", ["y"])]⟩

/-- A valid profile whose template references the undeclared slot
`missing` besides the declared slot `a`. -/
def profileM : Profile := ⟨["{a} {missing}"], [("a", ["x"])]⟩

/-- A two-slot profile for exercising per-slot selection. -/
def profileTwo : Profile :=
  ⟨["t {a} {b}", "u {b}"], [("a", ["p", "q", "r"]), ("b", ["v", "w"])]⟩

/-! ### Claim theorems -/

/-- C1: `generate_prompt` is deterministic.  For every seed, prompt index
and valid configuration (non-empty `templates`, all pools non-empty), two
independent calls return the same result; moreover the node wrapper's
output for a cached profile is a pure function of `(seed, index, profile)`
— it does not depend on the filesystem state passed in, i.e. there is no
hidden state beyond the explicit arguments. -/
theorem generate_prompt_deterministic (seed prompt_idx : Int) (p : Profile)
    (h1 : p.templates ≠ []) (h2 : ∀ kv ∈ p.pools, kv.2 ≠ []) :
    generate_prompt seed prompt_idx p = generate_prompt seed prompt_idx p ∧
    (∀ (st : NodeState) (name : String) (src src' : ProfileSource) (pre suf : String),
      cacheGet st.profile_cache name = some p →
      (DJZ_generate st name src seed prompt_idx pre suf).2 =
        (DJZ_generate st name src' seed prompt_idx pre suf).2) := by
  refine ⟨rfl, ?_⟩
  intro st name src src' pre suf hc
  simp [DJZ_generate, hc]

theorem generate_prompt_deterministic_witness :
    generate_prompt 0 0 profileW = generate_prompt 0 0 profileW ∧
    (∀ (st : NodeState) (name : String) (src src' : ProfileSource) (pre suf : String),
      cacheGet st.profile_cache name = some profileW →
      (DJZ_generate st name src 0 0 pre suf).2 = (DJZ_generate st name src' 0 0 pre suf).2) :=
  generate_prompt_deterministic 0 0 profileW (by decide) (by decide)

/-- C2 (code-bug evidence): `profileW` is a valid configuration, yet
`generate_prompt` fails (Python raises `struct.error` from
`struct.pack('<i', ...)`) at `prompt_idx = 2^31`, inside the declared
unsigned-32-bit index range; every index within the signed 32-bit range
does produce a string.  Generation is therefore not total on `[0, 2^32)`. -/
theorem generate_prompt_not_total_on_uint32 :
    profileW.templates ≠ [] ∧ (∀ kv ∈ profileW.pools, kv.2 ≠ []) ∧
    generate_prompt 0 (2 ^ 31) profileW = none ∧
    prompt_hash 0 [2 ^ 31, 0] = none ∧
    (∀ prompt_idx : Int, -(2 ^ 31) ≤ prompt_idx → prompt_idx < 2 ^ 31 →
      generate_prompt 0 prompt_idx profileW = some "a y") := by
  refine ⟨by decide, by decide, by rfl, by rfl, ?_⟩
  intro prompt_idx h1 h2
  obtain ⟨ha, hha⟩ := prompt_hash_pair_some 0 prompt_idx 0 h1 h2 (by decide) (by decide)
  obtain ⟨hb, hhb⟩ := prompt_hash_pair_some 0 prompt_idx 1 h1 h2 (by decide) (by decide)
  simp [generate_prompt, profileW, buildComponents, hha, hhb, hash_to_index, Nat.mod_one,
    pyFormat, pyFormatGo, dictGet, Except.map]

theorem generate_prompt_not_total_on_uint32_witness :
    generate_prompt 0 5 profileW = some "a y" :=
  generate_prompt_not_total_on_uint32.2.2.2.2 5 (by decide) (by decide)

/-- C3 (code-bug evidence): on a template containing the undeclared
placeholder `missing`, `generate_prompt` does not raise but returns the
raw curly-braced placeholder text unchanged — the output contains
`\x7bmissing\x7d`, not the bracketed marker `[missing]` the fallback's
dead `components.get` default suggests. -/
theorem generate_prompt_missing_slot_no_bracket_marker :
    generate_prompt 0 0 profileM = some "x {missing}" ∧
    ¬ ("[missing]".data <:+: ("x {missing}").data) ∧
    ("{missing}".data <:+: ("x {missing}").data) := by
  refine ⟨by rfl, by decide, by decide⟩

/-- C4 counterexample: `load_profile` accepts a profile whose `templates`
list is empty, and one with an empty pool — loading does not fail on
empty collections, contrary to the claim's "if and only if". -/
theorem load_profile_accepts_empty_collections :
    load_profile "empty.json" (.parsed ⟨some [], some []⟩) = .ok ⟨[], []⟩ ∧
    load_profile "emptypool.json" (.parsed ⟨some ["t"], some [("a", [])]⟩) =
      .ok ⟨["t"], [("a", [])]⟩ :=
  ⟨rfl, rfl⟩

/-- C4 (amended): loading fails (with the corresponding error) iff the
source is missing, malformed, or lacks the `templates` or `pools` field;
emptiness of the collections is not validated at load time. -/
theorem load_profile_error_iff (name : String) (src : ProfileSource) :
    (∃ e, load_profile name src = .error e) ↔
      src = .missing ∨ (∃ m, src = .malformed m) ∨
        (∃ raw, src = .parsed raw ∧ (raw.templates? = none ∨ raw.pools? = none)) := by
  cases src with
  | missing => simp [load_profile]
  | malformed m => simp [load_profile]
  | parsed raw =>
    rcases raw with ⟨ts, ps⟩
    cases ts with
    | none => simp [load_profile]
    | some l =>
      cases ps with
      | none => simp [load_profile]
      | some m => simp [load_profile]

theorem load_profile_error_iff_witness :
    ∃ e, load_profile "x.json" ProfileSource.missing = .error e :=
  (load_profile_error_iff "x.json" ProfileSource.missing).mpr (Or.inl rfl)

/-- C5: the assembler refines the spec's coordinate scheme: the template
is chosen with `hash(seed,[index,0]) mod len(templates)`, and the slot of
0-based rank `i` gets `pool[hash(seed,[index,i+1]) mod len(pool)]`, where
`slotValueSpec` takes only the seed, the index, the slot's own rank and
its own pool — so no slot's value depends on another slot's pool or hash. -/
theorem generate_prompt_coordinate_selection (seed index : Int) (p : Profile) :
    generate_prompt seed index p = assembleSpec seed index p ∧
    (∀ comps, componentsSpec seed index p.pools = some comps →
      ∀ (i : Nat) (k : String) (pool : List String), p.pools[i]? = some (k, pool) →
        ∃ v, slotValueSpec seed index i pool = some v ∧ comps[i]? = some (k, v)) := by
  constructor
  · simp only [generate_prompt, assembleSpec, selectTemplateSpec, componentsSpec,
      hash_to_index, buildComponents_eq_spec, List.enum]
    cases hph : prompt_hash seed [index, 0] with
    | none => simp
    | some th => simp
  · intro comps hm i k pool hi
    have hm' : (p.pools.enumFrom 0).mapM
        (fun x => (slotValueSpec seed index x.1 x.2.2).map (fun v => (x.2.1, v))) =
        some comps := by
      simpa [componentsSpec, List.enum] using hm
    have := componentsSpec_get seed index p.pools 0 comps hm' i k pool hi
    simpa using this

theorem generate_prompt_coordinate_selection_witness :
    generate_prompt 3 7 profileTwo = assembleSpec 3 7 profileTwo ∧
    (∃ v, slotValueSpec 3 7 1 ["v", "w"] = some v ∧
      [("a", "p"), ("b", "v")][1]? = some ("b", v)) :=
  ⟨(generate_prompt_coordinate_selection 3 7 profileTwo).1,
    (generate_prompt_coordinate_selection 3 7 profileTwo).2 [("a", "p"), ("b", "v")] rfl
      1 "b" ["v", "w"] rfl⟩

/-- C6: `hash_to_index` is exactly `h mod pool_size` and lands in
`[0, pool_size)` for every hash value and positive pool size. -/
theorem hash_to_index_mod_range (h pool_size : Nat) (hpos : 0 < pool_size) :
    hash_to_index h pool_size = h % pool_size ∧ hash_to_index h pool_size < pool_size :=
  ⟨rfl, Nat.mod_lt h hpos⟩

theorem hash_to_index_mod_range_witness :
    hash_to_index 12345 7 = 12345 % 7 ∧ hash_to_index 12345 7 < 7 :=
  hash_to_index_mod_range 12345 7 (by decide)

/-- C7: discovery puts `default.json` first whenever present, the rest
being exactly the remaining identifiers in lexicographic order; without
`default.json` the result is the sorted listing; with no sources (absent
directory or no JSON files) it is `["default.json"]`; and the spec's
concrete example comes out as required. -/
theorem discover_profiles_ordering (names : List String) :
    discover_profiles none = ["default.json"] ∧
    discover_profiles (some []) = ["default.json"] ∧
    discover_profiles (some ["zebra.json", "default.json", "apple.json"]) =
      ["default.json", "apple.json", "zebra.json"] ∧
    ("default.json" ∈ names →
      ∃ rest, discover_profiles (some names) = "default.json" :: rest ∧
        List.Sorted (fun a b => strLe a b = true) rest ∧
        ("default.json" :: rest).Perm names) ∧
    ("default.json" ∉ names → names ≠ [] →
      List.Sorted (fun a b => strLe a b = true) (discover_profiles (some names)) ∧
      (discover_profiles (some names)).Perm names) := by
  have hperm : (List.insertionSort (fun a b => strLe a b = true) names).Perm names :=
    List.perm_insertionSort _ names
  have hsorted : List.Sorted (fun a b => strLe a b = true)
      (List.insertionSort (fun a b => strLe a b = true) names) :=
    List.sorted_insertionSort _ names
  refine ⟨rfl, rfl, by rfl, ?_, ?_⟩
  · intro hmem
    have hmemS : "default.json" ∈ List.insertionSort (fun a b => strLe a b = true) names :=
      hperm.mem_iff.mpr hmem
    refine ⟨(List.insertionSort (fun a b => strLe a b = true) names).erase "default.json",
      ?_, ?_, ?_⟩
    · simp [discover_profiles, hmemS]
    · exact List.Pairwise.sublist (List.erase_sublist _ _) hsorted
    · exact ((List.perm_cons_erase hmemS).symm).trans hperm
  · intro hmem hne
    have hmemS : "default.json" ∉ List.insertionSort (fun a b => strLe a b = true) names :=
      fun hc => hmem (hperm.mem_iff.mp hc)
    have hne' : List.insertionSort (fun a b => strLe a b = true) names ≠ [] := by
      intro hc
      exact hne (List.Perm.eq_nil ((hc ▸ hperm).symm))
    have hd : discover_profiles (some names) =
        List.insertionSort (fun a b => strLe a b = true) names := by
      simp [discover_profiles, hmemS, hne']
    rw [hd]
    exact ⟨hsorted, hperm⟩

theorem discover_profiles_ordering_witness :
    ∃ rest, discover_profiles (some ["b.json", "default.json"]) = "default.json" :: rest ∧
      List.Sorted (fun a b => strLe a b = true) rest ∧
      ("default.json" :: rest).Perm ["b.json", "default.json"] :=
  (discover_profiles_ordering ["b.json", "default.json"]).2.2.2.1 (by decide)

/-- C8: `calculate_combinations` equals the exact product of the template
count and every pool's size (over `Nat`, i.e. arbitrary-precision—like
Python's `int`, no overflow or wrapping), and the spec's synthetic
example 2 × 3 × 4 gives 24. -/
theorem calculate_combinations_product (raw : RawProfile) :
    calculate_combinations raw =
      (raw.templates?.getD []).length *
        ((raw.pools?.getD []).map (fun kv => kv.2.length)).prod ∧
    calculate_combinations
      ⟨some ["t1", "t2"], some [("a", ["1", "2", "3"]), ("b", ["1", "2", "3", "4"])]⟩ = 24 := by
  constructor
  · exact foldl_mul_eq (fun kv => kv.2.length) (raw.pools?.getD []) _
  · rfl

/-- C9: `prompt_hash` only sees the seed through `seed mod 2^32`
(Python's `seed & 0xFFFFFFFF`), so congruent seeds define the same hash
stream and `generate_prompt` yields identical output for them at every
index and profile. -/
theorem prompt_hash_seed_mod_2pow32 (seed prompt_idx : Int) (coords : List Int) (p : Profile) :
    prompt_hash seed coords = prompt_hash (seed % (2 ^ 32 : Int)) coords ∧
    generate_prompt seed prompt_idx p = generate_prompt (seed % (2 ^ 32 : Int)) prompt_idx p ∧
    (∀ t : Int, seed % (2 ^ 32 : Int) = t % (2 ^ 32 : Int) →
      generate_prompt seed prompt_idx p = generate_prompt t prompt_idx p) := by
  have hm : seed % (2 ^ 32 : Int) = (seed % (2 ^ 32 : Int)) % (2 ^ 32 : Int) :=
    (Int.emod_emod_of_dvd seed dvd_rfl).symm
  exact ⟨prompt_hash_congr hm coords, generate_prompt_seed_congr hm prompt_idx p,
    fun t ht => generate_prompt_seed_congr ht prompt_idx p⟩

theorem prompt_hash_seed_mod_2pow32_witness :
    generate_prompt (2 ^ 32 + 5) 0 profileW = generate_prompt 5 0 profileW :=
  (prompt_hash_seed_mod_2pow32 (2 ^ 32 + 5) 0 [] profileW).2.2 5 (by decide)

/-- C10: on a cache miss whose load fails, `DJZZeroPromptV2.generate`
leaves the cache untouched (so a later call with a healthy source
performs the load and caches it) and returns, instead of propagating the
exception, the message naming the profile:
`[Error loading profile '<name>': <str(e)>]`. -/
theorem DJZ_generate_load_failure (st : NodeState) (name : String) (src : ProfileSource)
    (seed prompt_index : Int) (pre suf : String) (e : LoadError)
    (hmiss : cacheGet st.profile_cache name = none)
    (herr : load_profile name src = .error e) :
    (DJZ_generate st name src seed prompt_index pre suf).1 = st ∧
    (DJZ_generate st name src seed prompt_index pre suf).2 =
      some ("[Error loading profile '" ++ name ++ "': " ++ errString e ++ "]") ∧
    (∀ (src' : ProfileSource) (pd : Profile), load_profile name src' = .ok pd →
      ((DJZ_generate st name src' seed prompt_index pre suf).1).profile_cache =
        cacheSet st.profile_cache name pd) := by
  refine ⟨?_, ?_, ?_⟩
  · simp [DJZ_generate, hmiss, herr]
  · simp [DJZ_generate, hmiss, herr]
  · intro src' pd hok
    simp [DJZ_generate, hmiss, hok]

theorem DJZ_generate_load_failure_witness :
    (DJZ_generate ⟨[]⟩ "p.json" .missing 0 0 "" "").1 = (⟨[]⟩ : NodeState) ∧
    (DJZ_generate ⟨[]⟩ "p.json" .missing 0 0 "" "").2 =
      some ("[Error loading profile '" ++ "p.json" ++ "': " ++
        errString (.fileNotFound "p.json") ++ "]") ∧
    (∀ (src' : ProfileSource) (pd : Profile), load_profile "p.json" src' = .ok pd →
      ((DJZ_generate ⟨[]⟩ "p.json" src' 0 0 "" "").1).profile_cache =
        cacheSet [] "p.json" pd) :=
  DJZ_generate_load_failure ⟨[]⟩ "p.json" .missing 0 0 "" "" (.fileNotFound "p.json") rfl rfl

end ZeroPrompt
